import Mathlib

/-!
Verification development for the localCI revision-monitoring engine
(cmd/localCI/repo.go): the polling loop, the tested-revisions table and its
reconciliation, the dispatch of individual revision tests, the per-revision
setup (environment provisioning, download, log directory) and the staged
test pipeline with log shipping.

The Go code is shallowly embedded: the `revision` interface is embedded as a
record whose fields carry the results its methods would return for this
poll cycle; map mutation becomes explicit state passing over an association
list; `defer` statements registered in a loop body become an accumulator of
deferred cleanups that fires, last-in first-out, when the function returns.
Outcomes of external calls (environment provisioning, download, directory
creation, command execution, log copying) are carried as boolean oracles.
-/

namespace LocalCI

/-- Embedding of the Go `revision` interface (repo.go uses it through the
methods id, equal, isBeingTested, canBeTested, download, logDirName, test).
Each field records what the corresponding method call returns during this
poll cycle; the boolean oracles provisionOk, downloadOk and mkdirOk record
the outcomes of the external steps of setupRevision for this revision. -/
structure revision where
  rid : String
  fingerprint : Nat
  isBeingTested : Bool
  canBeTested : Option String
  provisionOk : Bool
  downloadOk : Bool
  mkdirOk : Bool
  logDirName : String
  workingDir : String
  langEnvVars : List String
  deriving Repr, DecidableEq

/-- Modelled from the spec: the revision implementations (branch and
pull-request, not under src/) expose equal(other), true iff same identity
AND same content fingerprint. -/
def revision.equal (a b : revision) : Bool :=
  a.rid == b.rid && a.fingerprint == b.fingerprint

/-- Embedding of the Go `languageConfig` value returned by
Language.generateEnvironment: a working directory plus extra environment
variables. -/
structure languageConfig where
  workingDir : String
  env : List String
  deriving Repr, DecidableEq

/-- Embedding of the Go `LogServer` struct (IP, User, Dir). -/
structure LogServer where
  IP : String
  User : String
  Dir : String
  deriving Repr, DecidableEq

/-- Embedding of the fields of the Go `Repo` struct that the monitoring and
test-execution code reads. -/
structure Repo where
  URL : String
  MasterBranch : String
  PR : Int
  RefreshTime : String
  Setup : List String
  Run : List String
  Teardown : List String
  OnSuccess : List String
  OnFailure : List String
  TTY : Bool
  LogDir : String
  LogServer : LogServer
  env : List String
  deriving Repr, DecidableEq

/-- Result of Repo.setupRevision (repo.go lines 421-441): the three fallible
steps are environment generation, revision download, and log-directory
creation; a failure at any step returns the error (and the zero
languageConfig) to the caller. -/
inductive setupResult where
  | provisionFailed
  | downloadFailed
  | mkdirFailed
  | ok (env : languageConfig)
  deriving Repr, DecidableEq

/-- Embedding of Repo.setupRevision: generate a language environment,
download the revision into its working directory, then remove and recreate
the revision's log directory. Note that when generateEnvironment succeeds
but a later step fails, the generated environment is not returned to the
caller (the Go code returns languageConfig zero value with the error). -/
def Repo.setupRevision (_r : Repo) (rev : revision) : setupResult :=
  if !rev.provisionOk then .provisionFailed
  else if !rev.downloadOk then .downloadFailed
  else if !rev.mkdirOk then .mkdirFailed
  else .ok { workingDir := rev.workingDir, env := rev.langEnvVars }

/-- Observable events of one testRevisions call, in program order:
`provisioned i` marks a successful Language.generateEnvironment for the
revision with id i; `tested i b` marks a synchronous (serialized-mode) run
of testRevision returning pass/fail b; `spawned i` marks a concurrent-mode
dispatch, where the loop only spawns the task and continues; `cleanup i`
marks a langEnv.cleanup() invocation fired by a deferred closure. -/
inductive event where
  | provisioned (i : String)
  | tested (i : String) (pass : Bool)
  | spawned (i : String)
  | cleanup (i : String)
  deriving Repr, DecidableEq

/-- The tested-revisions table: Go map[string]revision as an association
list. -/
def table := List (String × revision)

/-- Map lookup: revisionsTested[k] in Go. -/
def lookupRev (t : List (String × revision)) (k : String) : Option revision :=
  (t.find? (fun kv => kv.1 == k)).map (fun kv => kv.2)

/-- Map assignment revisionsTested[k] = v in Go: any previous binding of k
is replaced. -/
def insertRev (t : List (String × revision)) (k : String) (v : revision) :
    List (String × revision) :=
  (t.filter (fun kv => kv.1 != k)) ++ [(k, v)]

/-- Embedding of the first loop of testRevisions (repo.go lines 314-328):
delete every tracked entry whose key matches no discovered revision's id
and whose stored revision is not being tested. Each entry is decided
independently, so the map-range-with-delete is a filter. -/
def removeStale (revisions : List revision) (revisionsTested : List (String × revision)) :
    List (String × revision) :=
  revisionsTested.filter
    (fun kv => revisions.any (fun r => r.rid == kv.1) || kv.2.isBeingTested)

/-- State carried through the dispatch loop of testRevisions: the table,
the events emitted so far, and the ids whose cleanup closures have been
deferred (in registration order; they fire in reverse at function exit). -/
structure loopState where
  tbl : List (String × revision)
  events : List event
  deferred : List String
  deriving Repr, DecidableEq

/-- Embedding of the dispatch part of one iteration of the second loop of
testRevisions (repo.go lines 344-381), reached when the skip checks did not
fire: check canBeTested; run setupRevision (on error, continue without
recording); register the deferred cleanup; run testRevision under the
global lock (serialized) or spawn it (parallel; `testOk` is the pass/fail
the synchronous run would report); finally record the candidate in the
table. -/
def Repo.dispatchRevision (r : Repo) (parallel : Bool) (testOk : Bool)
    (st : loopState) (rev : revision) : loopState :=
  if (rev.canBeTested).isSome then st
  else
    match r.setupRevision rev with
    | .provisionFailed => st
    | .downloadFailed => { st with events := st.events ++ [.provisioned rev.rid] }
    | .mkdirFailed => { st with events := st.events ++ [.provisioned rev.rid] }
    | .ok _env =>
      let st1 : loopState :=
        { st with events := st.events ++ [.provisioned rev.rid],
                  deferred := st.deferred ++ [rev.rid] }
      let st2 : loopState :=
        if parallel then { st1 with events := st1.events ++ [.spawned rev.rid] }
        else { st1 with events := st1.events ++ [.tested rev.rid testOk] }
      { st2 with tbl := insertRev st2.tbl rev.rid rev }

/-- Embedding of one full iteration of the second loop of testRevisions
(repo.go lines 330-382): look the candidate up in the table; skip if the
stored revision is being tested; skip if the candidate equals the stored
revision; otherwise dispatch. -/
def Repo.processRevision (r : Repo) (parallel : Bool) (testOk : Bool)
    (st : loopState) (rev : revision) : loopState :=
  match lookupRev st.tbl rev.rid with
  | some tested =>
    if tested.isBeingTested then st
    else if rev.equal tested then st
    else r.dispatchRevision parallel testOk st rev
  | none => r.dispatchRevision parallel testOk st rev

/-- Embedding of Repo.testRevisions (repo.go lines 313-383): reconcile the
table against the discovered revisions, process each discovered revision in
order, then fire the deferred cleanups in reverse registration order as the
function returns. `parallel` embeds the package-level runTestsInParallel
flag; `testOk` is the oracle for the pass/fail of synchronous testRevision
runs. -/
def Repo.testRevisions (r : Repo) (parallel : Bool) (testOk : Bool)
    (revisions : List revision) (revisionsTested : List (String × revision)) :
    loopState :=
  let t1 := removeStale revisions revisionsTested
  let st := revisions.foldl (r.processRevision parallel testOk)
    { tbl := t1, events := [], deferred := [] }
  { st with events := st.events ++ st.deferred.reverse.map event.cleanup,
            deferred := [] }

/-- Embedding of the body of one pass of Repo.loop after discovery
(repo.go lines 302-309): testRevisions runs only when at least one
candidate revision was discovered; otherwise the loop goes straight to its
sleep with the table untouched. -/
def Repo.loopIteration (r : Repo) (parallel : Bool) (testOk : Bool)
    (revisionsToTest : List revision) (revisionsTested : List (String × revision)) :
    loopState :=
  if revisionsToTest.length > 0 then
    r.testRevisions parallel testOk revisionsToTest revisionsTested
  else { tbl := revisionsTested, events := [], deferred := [] }

/-- Embedding of the Go `stage` struct: a named phase with its command
list. -/
structure stage where
  name : String
  commands : List String
  deriving Repr, DecidableEq

/-- Embedding of the Go `stageConfig` struct built by testRevision. -/
structure stageConfig where
  logDir : String
  workingDir : String
  env : List String
  tty : Bool
  deriving Repr, DecidableEq

/-- Modelled from the spec: the Stage Runner (stage.go, not under src/)
executes each command of a stage in order and stops at the first failing
command, returning that failure; an empty command list is a no-op success.
The oracle cmdOk tells whether one command exits successfully. -/
def runCommands (cmdOk : String → Bool) : List String → Bool
  | [] => true
  | c :: cs => if cmdOk c then runCommands cmdOk cs else false

/-- Run of one stage: pass/fail of its command list. -/
def stage.run (s : stage) (cmdOk : String → Bool) : Bool :=
  runCommands cmdOk s.commands

/-- Modelled from the spec: the revision.test implementations (branch and
pull-request, not under src/) invoke the Stage Runner for setup, run and
teardown unconditionally in that order, then for onSuccess if all three
passed, else for onFailure. Returns whether the test passed together with
the names of the stages invoked, in invocation order. -/
def revisionTest (_config : stageConfig) (cmdOk : String → Bool)
    (stages : String → stage) : Bool × List String :=
  let phases := ["setup", "run", "teardown"].map
    (fun n => (n, (stages n).run cmdOk))
  let pass := phases.all (fun p => p.2)
  let final := if pass then "onSuccess" else "onFailure"
  let _finOk := (stages final).run cmdOk
  (pass, phases.map (fun p => p.1) ++ [final])

/-- Embedding of the stages map built by Repo.testRevision (repo.go lines
472-478); a Go map lookup at a missing key yields the zero stage. -/
def Repo.mkStages (r : Repo) : String → stage := fun n =>
  if n == "setup" then { name := "setup", commands := r.Setup }
  else if n == "run" then { name := "run", commands := r.Run }
  else if n == "teardown" then { name := "teardown", commands := r.Teardown }
  else if n == "onSuccess" then { name := "onSuccess", commands := r.OnSuccess }
  else if n == "onFailure" then { name := "onFailure", commands := r.OnFailure }
  else { name := "", commands := [] }

/-- Outcome of Repo.testRevision: the pipeline's pass/fail (the function's
return value), the ordered stage trace, and the log-shipping attempt:
none when no log server is configured, otherwise some b where b is the
copy's success (its failure is only logged). -/
structure testRevisionResult where
  pass : Bool
  trace : List String
  shipped : Option Bool
  deriving Repr, DecidableEq

/-- Embedding of Repo.testRevision (repo.go lines 445-482): build the stage
configuration (merged environment, TTY flag, log directory), register the
deferred log copy when a log-server IP is configured, then run the staged
pipeline; the deferred copy fires after the return value is computed and
its error is only logged. -/
def Repo.testRevision (r : Repo) (cmdOk : String → Bool) (copyOk : Bool)
    (langEnv : languageConfig) (rev : revision) : testRevisionResult :=
  let config : stageConfig :=
    { logDir := r.LogDir ++ "/" ++ rev.logDirName
      workingDir := langEnv.workingDir
      env := if langEnv.env.length > 0 then r.env ++ langEnv.env else r.env
      tty := r.TTY }
  let res := revisionTest config cmdOk (r.mkStages)
  { pass := res.1
    trace := res.2
    shipped := if r.LogServer.IP.length != 0 then some copyOk else none }

/-- Maximum value of Go's int64. -/
def maxInt64 : Int := 9223372036854775807

/-- Embedding of Go time.leadingInt: consume leading decimal digits into x,
failing on int64 overflow. -/
def leadingInt : List Char → Int → Option (Int × List Char)
  | [], x => some (x, [])
  | c :: cs, x =>
    if !c.isDigit then some (x, c :: cs)
    else if x > maxInt64 / 10 then none
    else
      let x1 := x * 10 + ((c.toNat : Int) - ('0'.toNat : Int))
      if x1 > maxInt64 then none
      else leadingInt cs x1

/-- Embedding of Go time.leadingFraction: consume digits after the decimal
point, growing the scale, silently dropping digits beyond int64 precision. -/
def leadingFraction : List Char → Int → Int → Bool → Int × Int × List Char
  | [], x, scale, _ => (x, scale, [])
  | c :: cs, x, scale, overflow =>
    if !c.isDigit then (x, scale, c :: cs)
    else if overflow then leadingFraction cs x scale overflow
    else if x > maxInt64 / 10 then leadingFraction cs x scale true
    else
      let y := x * 10 + ((c.toNat : Int) - ('0'.toNat : Int))
      if y > maxInt64 then leadingFraction cs x scale true
      else leadingFraction cs y (scale * 10) overflow

/-- Embedding of Go time's unitMap: nanoseconds per duration unit. -/
def unitMap (u : List Char) : Option Int :=
  if u = ['n', 's'] then some 1
  else if u = ['u', 's'] then some 1000
  else if u = ['µ', 's'] then some 1000
  else if u = ['μ', 's'] then some 1000
  else if u = ['m', 's'] then some 1000000
  else if u = ['s'] then some 1000000000
  else if u = ['m'] then some 60000000000
  else if u = ['h'] then some 3600000000000
  else none

/-- Character class [0-9.] used by ParseDuration. -/
def isDigitOrDot (c : Char) : Bool := c == '.' || c.isDigit

/-- Embedding of the main loop of Go time.ParseDuration: repeatedly parse a
digits[.digits]unit group and accumulate nanoseconds. Fuel bounds the
recursion; every real iteration consumes at least the unit's characters, so
fuel exceeding the input length never runs out. -/
def parseDurationLoop : Nat → List Char → Int → Option Int
  | 0, _, _ => none
  | _ + 1, [], d => some d
  | fuel + 1, s@(c :: _), d =>
    if !isDigitOrDot c then none
    else
      match leadingInt s 0 with
      | none => none
      | some (v, s1) =>
        let pre : Bool := s1.length != s.length
        let fdata : Int × Int × List Char × Bool :=
          match s1 with
          | '.' :: t =>
            match leadingFraction t 0 1 false with
            | (f, scale, s2) => (f, scale, s2, s2.length != t.length)
          | _ => (0, 1, s1, false)
        match fdata with
        | (f, scale, s2, post) =>
          if !pre && !post then none
          else
            let u := s2.takeWhile (fun ch => !isDigitOrDot ch)
            let s3 := s2.drop u.length
            if u.length == 0 then none
            else
              match unitMap u with
              | none => none
              | some unit =>
                if v > maxInt64 / unit then none
                else
                  let v1 := v * unit
                  let v2 := if f > 0 then v1 + f * unit / scale else v1
                  if v2 > maxInt64 then none
                  else
                    let d1 := d + v2
                    if d1 > maxInt64 then none
                    else parseDurationLoop fuel s3 d1

/-- Embedding of Go time.ParseDuration (called by setupRefreshTime);
returns the duration in nanoseconds, none on a parse error. The
fractional-digit contribution uses exact integer division where Go uses
float64 arithmetic; the two differ only in the lowest bits of sub-unit
fractions, never in sign or zeroness. -/
def ParseDuration (s : String) : Option Int :=
  let signed : Bool × List Char :=
    match s.toList with
    | '-' :: t => (true, t)
    | '+' :: t => (false, t)
    | l => (false, l)
  match signed with
  | (neg, rest) =>
    if rest = ['0'] then some 0
    else if rest = [] then none
    else
      match parseDurationLoop (rest.length + 1) rest 0 with
      | none => none
      | some d => some (if neg then -d else d)

/-- Embedding of Repo.setupRefreshTime (repo.go lines 167-177): parse the
configured RefreshTime with time.ParseDuration and fail exactly when
parsing fails; the parsed duration is accepted whatever its sign. Repo
setup aborts, and the repository is not monitored, when any setup function
returns an error. -/
def Repo.setupRefreshTime (r : Repo) : Except String Int :=
  match ParseDuration r.RefreshTime with
  | none => .error ("failed to parse refresh time " ++ r.RefreshTime)
  | some d => .ok d

/-- Ids of the cleanup invocations among a list of events. -/
def cleanupIds (evs : List event) : List String :=
  evs.filterMap fun e =>
    match e with
    | .cleanup i => some i
    | _ => none

/-- Ids of the dispatched tests (synchronous runs and spawned tasks) among
a list of events. -/
def dispatchedIds (evs : List event) : List String :=
  evs.filterMap fun e =>
    match e with
    | .tested i _ => some i
    | .spawned i => some i
    | _ => none

/-! Sample data used by witnesses and counterexamples. -/

/-- Sample repository with no log server configured. -/
def sampleRepo : Repo :=
  { URL := "https://example.org/demo/repo"
    MasterBranch := "master"
    PR := 0
    RefreshTime := "30s"
    Setup := ["make prepare"]
    Run := ["make test"]
    Teardown := ["make clean"]
    OnSuccess := []
    OnFailure := []
    TTY := false
    LogDir := "/var/log/localCI"
    LogServer := { IP := "", User := "", Dir := "" }
    env := ["CI=true"] }

/-- Sample revision whose external steps all succeed. -/
def sampleRev : revision :=
  { rid := "master"
    fingerprint := 41
    isBeingTested := false
    canBeTested := none
    provisionOk := true
    downloadOk := true
    mkdirOk := true
    logDirName := "master"
    workingDir := "/tmp/work"
    langEnvVars := ["GOPATH=/tmp/go"] }

/-- Sample revision whose download fails after a successful provisioning. -/
def sampleRevDownloadFail : revision :=
  { sampleRev with rid := "pr-12", logDirName := "pr-12", downloadOk := false }

/-! Helper lemmas. -/

theorem lookupRev_insertRev (t : List (String × revision)) (k : String)
    (v : revision) : lookupRev (insertRev t k v) k = some v := by
  simp [lookupRev, insertRev, List.find?_append]

theorem cleanupIds_append (a b : List event) :
    cleanupIds (a ++ b) = cleanupIds a ++ cleanupIds b := by
  simp [cleanupIds, List.filterMap_append]

theorem dispatchedIds_append (a b : List event) :
    dispatchedIds (a ++ b) = dispatchedIds a ++ dispatchedIds b := by
  simp [dispatchedIds, List.filterMap_append]

theorem cleanupIds_map_cleanup (l : List String) :
    cleanupIds (l.map event.cleanup) = l := by
  induction l with
  | nil => rfl
  | cons hd tl ih =>
    simp only [cleanupIds, List.map_cons, List.filterMap_cons] at ih ⊢
    simp [ih]

theorem dispatchedIds_map_cleanup (l : List String) :
    dispatchedIds (l.map event.cleanup) = [] := by
  induction l with
  | nil => rfl
  | cons hd tl ih =>
    simp only [dispatchedIds, List.map_cons, List.filterMap_cons] at ih ⊢
    simp [ih]

/-- Sample tested-table state holding the sample revision. -/
def sampleState : loopState :=
  { tbl := [("master", sampleRev)], events := [], deferred := [] }

/-- Sample revision currently mid-test. -/
def sampleRevInFlight : revision :=
  { sampleRev with rid := "pr-9", logDirName := "pr-9", isBeingTested := true }

/-- Sample state whose only entry is mid-test. -/
def sampleStateInFlight : loopState :=
  { tbl := [("pr-9", sampleRevInFlight)], events := [], deferred := [] }

/-- Sample tested revision of a change request that has since closed. -/
def sampleRevClosed : revision :=
  { sampleRev with rid := "pr-3", logDirName := "pr-3" }

/-- C3: a discovered revision whose tested-table entry is not marked
being-tested and agrees with it in identity and content fingerprint is
skipped: the loop iteration for it changes nothing — no eligibility check,
no provisioning, no stage run and no table write are performed. -/
theorem unchanged_tested_revision_skipped (r : Repo) (parallel testOk : Bool)
    (st : loopState) (rev tested : revision)
    (hfound : lookupRev st.tbl rev.rid = some tested)
    (hnot : tested.isBeingTested = false)
    (hid : rev.rid = tested.rid)
    (hfp : rev.fingerprint = tested.fingerprint) :
    r.processRevision parallel testOk st rev = st := by
  unfold Repo.processRevision
  rw [hfound]
  simp [hnot, revision.equal, hid, hfp]

/-- Witness for C3 at a concrete input: the sample revision, already in the
table unchanged and not mid-test, is skipped. -/
theorem unchanged_tested_revision_skipped_witness :
    sampleRepo.processRevision false true sampleState sampleRev = sampleState :=
  unchanged_tested_revision_skipped sampleRepo false true sampleState
    sampleRev sampleRev (by decide) (by decide) rfl rfl

/-- C4: a discovered revision whose tested-table entry is marked
being-tested is skipped, whatever its content: the loop iteration for it
changes nothing, so a second test of the same identity is never
dispatched while one is in flight. -/
theorem being_tested_revision_skipped (r : Repo) (parallel testOk : Bool)
    (st : loopState) (rev tested : revision)
    (hfound : lookupRev st.tbl rev.rid = some tested)
    (hbt : tested.isBeingTested = true) :
    r.processRevision parallel testOk st rev = st := by
  unfold Repo.processRevision
  rw [hfound]
  simp [hbt]

/-- Witness for C4 at a concrete input: a changed revision of an in-flight
change request is still skipped. -/
theorem being_tested_revision_skipped_witness :
    sampleRepo.processRevision true true sampleStateInFlight
      { sampleRevInFlight with fingerprint := 99, isBeingTested := false } =
      sampleStateInFlight :=
  being_tested_revision_skipped sampleRepo true true sampleStateInFlight
    { sampleRevInFlight with fingerprint := 99, isBeingTested := false }
    sampleRevInFlight (by decide) (by decide)

/-- C5: reconciliation removes a tracked entry exactly when its identity
appears in no discovered revision and it is not marked being-tested;
entries of in-flight tests are never evicted. -/
theorem stale_entry_eviction_iff (revisions : List revision)
    (revisionsTested : List (String × revision)) (k : String) (v : revision)
    (hmem : (k, v) ∈ revisionsTested) :
    (k, v) ∉ removeStale revisions revisionsTested ↔
      revisions.any (fun rv => rv.rid == k) = false ∧ v.isBeingTested = false := by
  simp [removeStale, List.mem_filter, hmem, not_or]

/-- Witness for C5 at a concrete input: the entry of a closed change
request, absent from the discovered set and not mid-test, is evicted. -/
theorem stale_entry_eviction_iff_witness :
    ("pr-3", sampleRevClosed) ∉ removeStale [sampleRev] [("pr-3", sampleRevClosed)] :=
  (stale_entry_eviction_iff [sampleRev] [("pr-3", sampleRevClosed)] "pr-3"
    sampleRevClosed (by simp)).mpr (by decide)

/-- C10: when discovery produces no candidate revision, testRevisions is
not entered at all: the tested-table is left untouched (no stale entry is
evicted), nothing is dispatched, and the loop proceeds to its sleep. -/
theorem empty_discovery_skips_reconciliation (r : Repo) (parallel testOk : Bool)
    (revisionsTested : List (String × revision)) :
    r.loopIteration parallel testOk [] revisionsTested =
      { tbl := revisionsTested, events := [], deferred := [] } := rfl

/-- C1 (amended): for an eligible revision that reaches dispatch, the
candidate is recorded into the tested-table under its identity whenever
setupRevision succeeded — for a passing and for a failing test alike, in
serialized and in concurrent mode — but when provisioning, download or
log-directory creation fails, the candidate is not recorded and the table
is left unchanged, so such a revision is re-attempted on the next cycle. -/
theorem dispatch_records_candidate_iff_setup_succeeds (r : Repo)
    (parallel testOk : Bool) (st : loopState) (rev : revision)
    (helig : rev.canBeTested = none) :
    (∀ env, r.setupRevision rev = .ok env →
        lookupRev (r.dispatchRevision parallel testOk st rev).tbl rev.rid =
          some rev) ∧
    ((∀ env, r.setupRevision rev ≠ .ok env) →
        (r.dispatchRevision parallel testOk st rev).tbl = st.tbl) := by
  constructor
  · intro env hok
    unfold Repo.dispatchRevision
    simp only [helig, Option.isSome_none, Bool.false_eq_true, if_false, hok]
    cases parallel <;> simp [lookupRev_insertRev]
  · intro hfail
    unfold Repo.dispatchRevision
    simp only [helig, Option.isSome_none, Bool.false_eq_true, if_false]
    cases hs : r.setupRevision rev with
    | ok env => exact absurd hs (hfail env)
    | provisionFailed => rfl
    | downloadFailed => rfl
    | mkdirFailed => rfl

/-- Witness for C1 at a concrete input: a failing test (testOk = false) of
the sample revision is still recorded under its identity. -/
theorem dispatch_records_candidate_iff_setup_succeeds_witness :
    lookupRev (sampleRepo.dispatchRevision false false
      { tbl := [], events := [], deferred := [] } sampleRev).tbl
      sampleRev.rid = some sampleRev :=
  (dispatch_records_candidate_iff_setup_succeeds sampleRepo false false
    { tbl := [], events := [], deferred := [] } sampleRev (by decide)).1
    { workingDir := "/tmp/work", env := ["GOPATH=/tmp/go"] } (by decide)

/-- Counterexample to C1 as stated: a revision whose download fails after a
successful provisioning reaches dispatch (the provisioned event is
emitted) yet the tested-table stays empty — the candidate is not recorded,
so a persistently failing-to-download revision is re-dispatched every
cycle. -/
theorem download_failure_candidate_not_recorded_cex :
    (sampleRepo.testRevisions false true [sampleRevDownloadFail] []).events =
      [event.provisioned "pr-12"] ∧
    (sampleRepo.testRevisions false true [sampleRevDownloadFail] []).tbl = [] := by
  decide

/-- C9 (amended): under concurrent dispatch mode, the tested-table entry is
written synchronously by the monitor loop immediately upon dispatch — the
loop merely spawns the task and the entry is present before it runs — but
the being-tested marker is not set by the loop: the recorded entry keeps
whatever marker value the revision carried at discovery. -/
theorem table_written_synchronously_by_loop_on_spawn (r : Repo)
    (testOk : Bool) (st : loopState) (rev : revision) (env : languageConfig)
    (helig : rev.canBeTested = none)
    (hok : r.setupRevision rev = .ok env) :
    lookupRev (r.dispatchRevision true testOk st rev).tbl rev.rid = some rev ∧
    (r.dispatchRevision true testOk st rev).events =
      st.events ++ [.provisioned rev.rid, .spawned rev.rid] ∧
    (lookupRev (r.dispatchRevision true testOk st rev).tbl rev.rid).map
      revision.isBeingTested = some rev.isBeingTested := by
  unfold Repo.dispatchRevision
  simp [helig, hok, lookupRev_insertRev]

/-- Witness for C9 at a concrete input: spawning the sample revision's
test writes its table entry in the same loop iteration. -/
theorem table_written_synchronously_by_loop_on_spawn_witness :
    lookupRev (sampleRepo.dispatchRevision true true
      { tbl := [], events := [], deferred := [] } sampleRev).tbl
      sampleRev.rid = some sampleRev :=
  (table_written_synchronously_by_loop_on_spawn sampleRepo true
    { tbl := [], events := [], deferred := [] } sampleRev
    { workingDir := "/tmp/work", env := ["GOPATH=/tmp/go"] }
    (by decide) (by decide)).1

/-- Counterexample to C9 as stated: in concurrent mode a task is spawned
for a revision discovered with the marker unset, yet the table entry
written by the loop still carries being-tested = false — the loop does not
set the being-tested marker at dispatch time; only the spawned task's own
test run could. -/
theorem being_tested_marker_not_set_by_loop_cex :
    event.spawned "master" ∈
      (sampleRepo.dispatchRevision true true
        { tbl := [], events := [], deferred := [] } sampleRev).events ∧
    (lookupRev (sampleRepo.dispatchRevision true true
        { tbl := [], events := [], deferred := [] } sampleRev).tbl
        "master").map revision.isBeingTested = some false := by
  decide

/-- Invariant carried through the dispatch loop of testRevisions: no
cleanup event has fired yet (deferred closures run only at function exit)
and the dispatched ids seen so far are exactly the registered deferred
cleanups, in registration order. -/
def cleanupInvariant (st : loopState) : Prop :=
  cleanupIds st.events = [] ∧ dispatchedIds st.events = st.deferred

theorem cleanupIds_nil : cleanupIds [] = [] := rfl

theorem cleanupIds_one_provisioned (i : String) (l : List event) :
    cleanupIds (event.provisioned i :: l) = cleanupIds l := rfl

theorem cleanupIds_one_spawned (i : String) (l : List event) :
    cleanupIds (event.spawned i :: l) = cleanupIds l := rfl

theorem cleanupIds_one_tested (i : String) (b : Bool) (l : List event) :
    cleanupIds (event.tested i b :: l) = cleanupIds l := rfl

theorem dispatchedIds_nil : dispatchedIds [] = [] := rfl

theorem dispatchedIds_one_provisioned (i : String) (l : List event) :
    dispatchedIds (event.provisioned i :: l) = dispatchedIds l := rfl

theorem dispatchedIds_one_spawned (i : String) (l : List event) :
    dispatchedIds (event.spawned i :: l) = i :: dispatchedIds l := rfl

theorem dispatchedIds_one_tested (i : String) (b : Bool) (l : List event) :
    dispatchedIds (event.tested i b :: l) = i :: dispatchedIds l := rfl

theorem cleanupIds_reverse (l : List event) :
    cleanupIds l.reverse = (cleanupIds l).reverse := by
  simp [cleanupIds, List.filterMap_reverse]

theorem dispatchedIds_reverse (l : List event) :
    dispatchedIds l.reverse = (dispatchedIds l).reverse := by
  simp [dispatchedIds, List.filterMap_reverse]

theorem dispatchRevision_cleanupInvariant (r : Repo) (parallel testOk : Bool)
    (st : loopState) (rev : revision) (h : cleanupInvariant st) :
    cleanupInvariant (r.dispatchRevision parallel testOk st rev) := by
  obtain ⟨h1, h2⟩ := h
  unfold Repo.dispatchRevision
  split
  · exact ⟨h1, h2⟩
  · cases r.setupRevision rev with
    | provisionFailed => exact ⟨h1, h2⟩
    | downloadFailed =>
      exact ⟨by simp [cleanupIds_append, cleanupIds_one_provisioned,
          cleanupIds_nil, h1],
        by simp [dispatchedIds_append, dispatchedIds_one_provisioned,
          dispatchedIds_nil, h2]⟩
    | mkdirFailed =>
      exact ⟨by simp [cleanupIds_append, cleanupIds_one_provisioned,
          cleanupIds_nil, h1],
        by simp [dispatchedIds_append, dispatchedIds_one_provisioned,
          dispatchedIds_nil, h2]⟩
    | ok env =>
      cases parallel <;>
        exact ⟨by simp [cleanupIds_append, cleanupIds_one_provisioned,
            cleanupIds_one_spawned, cleanupIds_one_tested, cleanupIds_nil, h1],
          by simp [dispatchedIds_append, dispatchedIds_one_provisioned,
            dispatchedIds_one_spawned, dispatchedIds_one_tested,
            dispatchedIds_nil, h2]⟩

theorem processRevision_cleanupInvariant (r : Repo) (parallel testOk : Bool)
    (st : loopState) (rev : revision) (h : cleanupInvariant st) :
    cleanupInvariant (r.processRevision parallel testOk st rev) := by
  unfold Repo.processRevision
  cases lookupRev st.tbl rev.rid with
  | none => exact dispatchRevision_cleanupInvariant r parallel testOk st rev h
  | some tested =>
    by_cases hb : tested.isBeingTested = true
    · simp only [hb, if_true]
      exact h
    · by_cases he : rev.equal tested = true
      · simp only [hb, he, if_false, if_true]
        exact h
      · simp only [hb, he, if_false]
        exact dispatchRevision_cleanupInvariant r parallel testOk st rev h

theorem foldl_processRevision_cleanupInvariant (r : Repo)
    (parallel testOk : Bool) :
    ∀ (revs : List revision) (st : loopState), cleanupInvariant st →
      cleanupInvariant (revs.foldl (r.processRevision parallel testOk) st)
  | [], _, h => h
  | rev :: tl, st, h => by
    simp only [List.foldl_cons]
    exact foldl_processRevision_cleanupInvariant r parallel testOk tl _
      (processRevision_cleanupInvariant r parallel testOk st rev h)

/-- C2 (amended): over one testRevisions call the cleanup invocations are
exactly one per dispatched revision (those whose setupRevision succeeded),
fired in reverse registration order when the function returns, whatever
each test's outcome; an environment provisioned for a revision whose
download or log-directory creation then failed receives no cleanup at
all. -/
theorem cleanup_fires_once_per_dispatched_revision (r : Repo)
    (parallel testOk : Bool) (revisions : List revision)
    (revisionsTested : List (String × revision)) :
    cleanupIds
      (r.testRevisions parallel testOk revisions revisionsTested).events =
    (dispatchedIds
      (r.testRevisions parallel testOk revisions revisionsTested).events).reverse := by
  obtain ⟨h1, h2⟩ := foldl_processRevision_cleanupInvariant r parallel testOk
    revisions
    { tbl := removeStale revisions revisionsTested, events := [], deferred := [] }
    ⟨rfl, rfl⟩
  unfold Repo.testRevisions
  simp [cleanupIds_append, dispatchedIds_append, cleanupIds_map_cleanup,
    dispatchedIds_map_cleanup, cleanupIds_reverse, dispatchedIds_reverse,
    h1, h2]

/-- Sample revision of a change request whose download fails after a
successful provisioning, used to exhibit the environment leak. -/
def sampleRevLeak : revision :=
  { sampleRev with rid := "pr-33", logDirName := "pr-33", downloadOk := false }

/-- Counterexample to C2 as stated: provisioning succeeds for a revision
whose download then fails; the environment's release is never invoked — a
provisioned event is emitted but no cleanup event ever fires for it. -/
theorem provisioned_env_leaked_on_download_failure_cex :
    (sampleRepo.testRevisions true true [sampleRevLeak] []).events =
      [event.provisioned "pr-33"] ∧
    cleanupIds (sampleRepo.testRevisions true true [sampleRevLeak] []).events =
      [] := by
  decide

/-- C6: in every dispatched revision test the stages are invoked in the
fixed order setup, run, teardown, followed by exactly one of onSuccess
(iff all three passed) or onFailure — never both, never neither. -/
theorem stage_order_fixed_exactly_one_outcome (r : Repo)
    (cmdOk : String → Bool) (copyOk : Bool) (langEnv : languageConfig)
    (rev : revision) :
    (r.testRevision cmdOk copyOk langEnv rev).trace =
      ["setup", "run", "teardown",
        if (r.mkStages "setup").run cmdOk &&
           (r.mkStages "run").run cmdOk &&
           (r.mkStages "teardown").run cmdOk
        then "onSuccess" else "onFailure"] ∧
    ((r.testRevision cmdOk copyOk langEnv rev).trace.count "onSuccess" +
      (r.testRevision cmdOk copyOk langEnv rev).trace.count "onFailure" = 1) ∧
    ((r.testRevision cmdOk copyOk langEnv rev).pass = true ↔
      ((r.mkStages "setup").run cmdOk = true ∧
       (r.mkStages "run").run cmdOk = true ∧
       (r.mkStages "teardown").run cmdOk = true)) := by
  unfold Repo.testRevision revisionTest
  cases h1 : (r.mkStages "setup").run cmdOk <;>
    cases h2 : (r.mkStages "run").run cmdOk <;>
      cases h3 : (r.mkStages "teardown").run cmdOk <;>
        simp [h1, h2, h3]

/-- C8: when a log server is configured, log shipping is attempted after
the pipeline whatever the test's outcome, and the shipping outcome never
changes the value testRevision returns. -/
theorem log_shipping_attempted_never_escalated (r : Repo)
    (cmdOk : String → Bool) (copyOk copyOk2 : Bool)
    (langEnv : languageConfig) (rev : revision)
    (hip : r.LogServer.IP.length ≠ 0) :
    (r.testRevision cmdOk copyOk langEnv rev).shipped = some copyOk ∧
    (r.testRevision cmdOk copyOk langEnv rev).pass =
      (r.testRevision cmdOk copyOk2 langEnv rev).pass := by
  refine ⟨?_, rfl⟩
  unfold Repo.testRevision
  simp [bne, hip]

/-- Sample repository with a remote log server configured. -/
def sampleRepoLogServer : Repo :=
  { sampleRepo with
      LogServer := { IP := "10.0.0.8", User := "root", Dir := "/srv/logs" } }

/-- Witness for C8 at a concrete input: with every command failing and the
copy itself failing, shipping is still attempted and the test result is
the pipeline's own failure. -/
theorem log_shipping_attempted_never_escalated_witness :
    (sampleRepoLogServer.testRevision (fun _ => false) false
      { workingDir := "/tmp/work", env := [] } sampleRev).shipped =
      some false :=
  (log_shipping_attempted_never_escalated sampleRepoLogServer (fun _ => false)
    false true { workingDir := "/tmp/work", env := [] } sampleRev
    (by decide)).1

/-- C7 (amended): repository validation fails exactly when the configured
poll-interval string fails Go duration parsing; strings denoting a zero or
negative duration ("0s", "-5s") are accepted, while a malformed string
("1century") is rejected. -/
theorem refresh_time_validation_is_parse_only :
    ({ sampleRepo with RefreshTime := "0s" } : Repo).setupRefreshTime =
      .ok 0 ∧
    ({ sampleRepo with RefreshTime := "-5s" } : Repo).setupRefreshTime =
      .ok (-5000000000) ∧
    ({ sampleRepo with RefreshTime := "1century" } : Repo).setupRefreshTime =
      .error "failed to parse refresh time 1century" ∧
    ({ sampleRepo with RefreshTime := "30s" } : Repo).setupRefreshTime =
      .ok 30000000000 :=
  ⟨rfl, rfl, rfl, rfl⟩

/-- Counterexample to C7 as stated: the string "0s" parses to the zero
duration, which is not positive, yet setupRefreshTime succeeds — a zero
(or negative) poll interval is not rejected and the repository is
monitored with it. -/
theorem zero_refresh_duration_accepted_cex :
    ParseDuration "0s" = some 0 ∧
    ({ sampleRepo with RefreshTime := "0s" } : Repo).setupRefreshTime =
      .ok 0 ∧
    ¬ (0 : Int) > 0 :=
  ⟨rfl, rfl, by decide⟩

end LocalCI
